import Mathlib

/-
Verification of the agent messaging and dispatch layer of the A2AForge
multi-agent cloud assistant.  The Lean definitions below are shallow
embeddings of the Python sources under src/agents/: the message envelope and
registry-based delivery (base_agent.py), the coordinator's intent dispatch
handlers (coordinator.py), the two rule-based fallback intent classifiers
(fast_perplexity_client.py and perplexity_client.py), and the region
mapping and cross-region resource locator (ec2_agent.py).  External
collaborators (boto3 calls, the remote Perplexity service) are modelled as
function parameters, exactly at the interface boundary the code uses.
-/

/-! ## String helpers mirroring the Python string operations used -/

/-- ASCII lower-casing of a character, matching Python str.lower on the
ASCII inputs the classifiers and region tables use. -/
def asciiLower (c : Char) : Char :=
  if 'A' ≤ c && c ≤ 'Z' then Char.ofNat (c.toNat + 32) else c

/-- Python str.lower (ASCII fragment). -/
def strLower (s : String) : String := ⟨s.data.map asciiLower⟩

/-- Python whitespace test used by str.strip. -/
def isPySpace (c : Char) : Bool :=
  c == ' ' || c == '\t' || c == '\n' || c == '\r' || c == '\x0b' || c == '\x0c'

/-- Python str.strip on a character list. -/
def trimChars (cs : List Char) : List Char :=
  ((cs.dropWhile isPySpace).reverse.dropWhile isPySpace).reverse

/-- Python str.strip. -/
def strTrim (s : String) : String := ⟨trimChars s.data⟩

/-- Containment of a needle character list inside a hay character list,
mirroring the Python `needle in hay` substring test. -/
def charsContains (needle : List Char) : List Char → Bool
  | [] => needle.isEmpty
  | c :: rest => needle.isPrefixOf (c :: rest) || charsContains needle rest

/-- Python `needle in hay` on strings. -/
def strContains (hay needle : String) : Bool := charsContains needle.data hay.data

/-- Python str.startswith. -/
def strStartsWith (s p : String) : Bool := p.data.isPrefixOf s.data

/-- Python falsiness of a string (empty string is falsy). -/
def strIsEmpty (s : String) : Bool := s.data.isEmpty

/-! ## Intent dictionaries

The classifiers return Python dicts of the shape
`{service: str, action: str, parameters: dict}`; parameter values are
strings. -/

/-- The Intent value produced by intent parsing: service, action and the
(string-valued) parameters mapping. -/
structure IntentDict where
  service : String
  action : String
  parameters : List (String × String)
deriving DecidableEq, Repr

/-- Python dict.get on a string-valued association list. -/
def alistGet (l : List (String × String)) (k : String) : Option String :=
  (l.find? (fun p => p.1 == k)).map (fun p => p.2)

/-! ## FastPerplexityClient._fast_fallback (src/agents/fast_perplexity_client.py, lines 122-154) -/

/-- EC2 rule block of `_fast_fallback`: the body of
`if 'ec2' in text or 'instance' in text:`; `none` means the block fell
through without returning. -/
def fastEc2Block (text : String) : Option IntentDict :=
  if strContains text "ec2" || strContains text "instance" then
    if strContains text "create" || strContains text "launch" then
      some ⟨"ec2", "create_instance", []⟩
    else if strContains text "list" || strContains text "show" then
      some ⟨"ec2", "list_instances", []⟩
    else if strContains text "stop" then
      some ⟨"ec2", "stop_instance", []⟩
    else if strContains text "terminate" || strContains text "delete" then
      some ⟨"ec2", "terminate_instance", []⟩
    else none
  else none

/-- S3 rule block of `_fast_fallback`: the body of
`if 's3' in text or 'bucket' in text:`. -/
def fastS3Block (text : String) : Option IntentDict :=
  if strContains text "s3" || strContains text "bucket" then
    if strContains text "create" then
      some ⟨"s3", "create_bucket", []⟩
    else if strContains text "list" then
      some ⟨"s3", "list_buckets", []⟩
    else if strContains text "delete" then
      some ⟨"s3", "delete_bucket", []⟩
    else none
  else none

/-- The fixed greeting token list of `_fast_fallback`. -/
def fastGreetings : List String :=
  ["hi", "hello", "hey", "how are you", "how are u", "whats up", "what\x27s up"]

/-- `FastPerplexityClient._fast_fallback`: keyword-based intent classifier
used when the remote service is unavailable.  The two domain blocks are
separate `if` statements in the source, so a non-matching EC2 block falls
through to the S3 block and then to the greeting/help rules. -/
def fastFallback (userInput : String) : IntentDict :=
  let text := strLower userInput
  match fastEc2Block text with
  | some i => i
  | none =>
    match fastS3Block text with
    | some i => i
    | none =>
      if fastGreetings.any (fun g => strContains text g) then
        ⟨"unknown", "greeting", []⟩
      else if strContains text "help" then
        ⟨"unknown", "help", []⟩
      else
        ⟨"unknown", "help", []⟩

/-! ## PerplexityClient._fallback_parse (src/agents/perplexity_client.py, lines 140-174) -/

/-- EC2 action chain of `_fallback_parse` (inner if/elif chain of the
`'ec2' in text or 'instance' in text` branch). -/
def fpEc2Chain (text : String) : Option IntentDict :=
  if strContains text "create" || strContains text "launch" then
    some ⟨"ec2", "create_instance", []⟩
  else if strContains text "list" || strContains text "show" then
    some ⟨"ec2", "list_instances", []⟩
  else if strContains text "stop" then
    some ⟨"ec2", "stop_instance", []⟩
  else if strContains text "terminate" || strContains text "delete" then
    some ⟨"ec2", "terminate_instance", []⟩
  else none

/-- S3 action chain of `_fallback_parse` (inner if/elif chain of the
`'s3' in text or 'bucket' in text` branch), including the
object/file split of the list action. -/
def fpS3Chain (text : String) : Option IntentDict :=
  if strContains text "create" then
    some ⟨"s3", "create_bucket", []⟩
  else if strContains text "list" then
    if strContains text "object" || strContains text "file" then
      some ⟨"s3", "list_objects", []⟩
    else
      some ⟨"s3", "list_buckets", []⟩
  else if strContains text "delete" then
    some ⟨"s3", "delete_bucket", []⟩
  else none

/-- The exact-or-prefix greeting condition of `_fallback_parse`: the
stripped lowered text equals a token of the fixed list, or starts with the
token followed by a space. -/
def fpGreetPrefixOk (text : String) : Bool :=
  ["hi", "hello", "hey", "help"].any
    (fun g => strTrim text == g || strStartsWith (strTrim text) (g ++ " "))

/-- The domain-keyword exclusion of `_fallback_parse`'s greeting rule:
the text mentions none of ec2, s3, instance, bucket. -/
def fpHasDomainKw (text : String) : Bool :=
  strContains text "ec2" || strContains text "s3" ||
  strContains text "instance" || strContains text "bucket"

/-- The if/elif domain pair of `_fallback_parse`: the EC2 chain is consulted
when the text mentions ec2 or instance, otherwise (elif) the S3 chain when it
mentions s3 or bucket; `none` means both fell through without returning. -/
def fpDomainBlock (text : String) : Option IntentDict :=
  if strContains text "ec2" || strContains text "instance" then
    fpEc2Chain text
  else if strContains text "s3" || strContains text "bucket" then
    fpS3Chain text
  else none

/-- `PerplexityClient._fallback_parse`: the ordered-rule fallback intent
classifier.  The EC2 and S3 blocks are an if/elif pair in the source, so
only one domain block is consulted; a non-matching block falls through to
the greeting rule, which requires exact-or-prefix match of a greeting
token and absence of all domain keywords. -/
def fallbackParse (userInput : String) : IntentDict :=
  let text := strLower userInput
  match fpDomainBlock text with
  | some i => i
  | none =>
    if fpGreetPrefixOk text then
      if !fpHasDomainKw text then
        ⟨"unknown", "greeting", []⟩
      else
        ⟨"unknown", "help", []⟩
    else
      ⟨"unknown", "help", []⟩

/-! ## Shape and equation lemmas for the classifiers -/

lemma fastEc2Block_shape (t : String) (i : IntentDict) (h : fastEc2Block t = some i) :
    i.service = "ec2" ∧ i.action ≠ "greeting" ∧ i.action ≠ "" := by
  simp only [fastEc2Block] at h
  split_ifs at h
  all_goals first
    | exact Option.noConfusion h
    | (cases h; exact ⟨rfl, by decide, by decide⟩)

lemma fastS3Block_shape (t : String) (i : IntentDict) (h : fastS3Block t = some i) :
    i.service = "s3" ∧ i.action ≠ "greeting" ∧ i.action ≠ "" := by
  simp only [fastS3Block] at h
  split_ifs at h
  all_goals first
    | exact Option.noConfusion h
    | (cases h; exact ⟨rfl, by decide, by decide⟩)

lemma fpEc2Chain_shape (t : String) (i : IntentDict) (h : fpEc2Chain t = some i) :
    i.service = "ec2" ∧ i.action ≠ "greeting" ∧ i.action ≠ "" := by
  simp only [fpEc2Chain] at h
  split_ifs at h
  all_goals first
    | exact Option.noConfusion h
    | (cases h; exact ⟨rfl, by decide, by decide⟩)

lemma fpS3Chain_shape (t : String) (i : IntentDict) (h : fpS3Chain t = some i) :
    i.service = "s3" ∧ i.action ≠ "greeting" ∧ i.action ≠ "" := by
  simp only [fpS3Chain] at h
  split_ifs at h
  all_goals first
    | exact Option.noConfusion h
    | (cases h; exact ⟨rfl, by decide, by decide⟩)

lemma fastFallback_of_ec2 (t : String) (i : IntentDict)
    (h : fastEc2Block (strLower t) = some i) : fastFallback t = i := by
  simp only [fastFallback]
  rw [h]

lemma fastFallback_of_s3 (t : String) (i : IntentDict)
    (h1 : fastEc2Block (strLower t) = none) (h2 : fastS3Block (strLower t) = some i) :
    fastFallback t = i := by
  simp only [fastFallback]
  rw [h1, h2]

lemma fastFallback_of_none (t : String)
    (h1 : fastEc2Block (strLower t) = none) (h2 : fastS3Block (strLower t) = none) :
    fastFallback t =
      (if fastGreetings.any (fun g => strContains (strLower t) g) then
        ⟨"unknown", "greeting", []⟩
      else if strContains (strLower t) "help" then
        ⟨"unknown", "help", []⟩
      else
        ⟨"unknown", "help", []⟩) := by
  simp only [fastFallback]
  rw [h1, h2]

lemma fallbackParse_of_domain (t : String) (i : IntentDict)
    (h : fpDomainBlock (strLower t) = some i) : fallbackParse t = i := by
  simp only [fallbackParse]
  rw [h]

lemma fallbackParse_of_none (t : String) (h : fpDomainBlock (strLower t) = none) :
    fallbackParse t =
      (if fpGreetPrefixOk (strLower t) then
        if !fpHasDomainKw (strLower t) then
          ⟨"unknown", "greeting", []⟩
        else
          ⟨"unknown", "help", []⟩
      else
        ⟨"unknown", "help", []⟩) := by
  simp only [fallbackParse]
  rw [h]

lemma fpDomainBlock_shape (t : String) (i : IntentDict) (h : fpDomainBlock t = some i) :
    (i.service = "ec2" ∨ i.service = "s3") ∧ i.action ≠ "greeting" ∧ i.action ≠ ""
      ∧ fpHasDomainKw t = true := by
  simp only [fpDomainBlock] at h
  split_ifs at h with c1 c2
  · have s := fpEc2Chain_shape _ _ h
    refine ⟨Or.inl s.1, s.2.1, s.2.2, ?_⟩
    simp only [fpHasDomainKw]
    rcases Bool.or_eq_true_iff.mp c1 with c | c <;> simp [c]
  · have s := fpS3Chain_shape _ _ h
    refine ⟨Or.inr s.1, s.2.1, s.2.2, ?_⟩
    simp only [fpHasDomainKw]
    rcases Bool.or_eq_true_iff.mp c2 with c | c <;> simp [c]

/-- C10: the fallback classifiers are pure total functions: for every input
text each of `_fast_fallback` and `_fallback_parse` returns a well-formed
Intent whose service is ec2 (compute), s3 (storage) or unknown, with a
non-empty action string and a (possibly empty) parameters mapping.
Termination without I/O is inherent: both are total Lean functions of the
input string alone. -/
theorem c10_fallback_classifier_total (t : String) :
    ((fastFallback t).service = "ec2" ∨ (fastFallback t).service = "s3" ∨
       (fastFallback t).service = "unknown") ∧
    (fastFallback t).action ≠ "" ∧
    ((fallbackParse t).service = "ec2" ∨ (fallbackParse t).service = "s3" ∨
       (fallbackParse t).service = "unknown") ∧
    (fallbackParse t).action ≠ "" := by
  have hfast : ((fastFallback t).service = "ec2" ∨ (fastFallback t).service = "s3" ∨
      (fastFallback t).service = "unknown") ∧ (fastFallback t).action ≠ "" := by
    cases h1 : fastEc2Block (strLower t) with
    | some i =>
      rw [fastFallback_of_ec2 t i h1]
      have s := fastEc2Block_shape _ _ h1
      exact ⟨Or.inl s.1, s.2.2⟩
    | none =>
      cases h2 : fastS3Block (strLower t) with
      | some i =>
        rw [fastFallback_of_s3 t i h1 h2]
        have s := fastS3Block_shape _ _ h2
        exact ⟨Or.inr (Or.inl s.1), s.2.2⟩
      | none =>
        rw [fastFallback_of_none t h1 h2]
        split_ifs
        all_goals exact ⟨Or.inr (Or.inr rfl), by decide⟩
  have hfp : ((fallbackParse t).service = "ec2" ∨ (fallbackParse t).service = "s3" ∨
      (fallbackParse t).service = "unknown") ∧ (fallbackParse t).action ≠ "" := by
    cases h1 : fpDomainBlock (strLower t) with
    | some i =>
      rw [fallbackParse_of_domain t i h1]
      have s := fpDomainBlock_shape _ _ h1
      exact ⟨s.1.imp id Or.inl, s.2.2.1⟩
    | none =>
      rw [fallbackParse_of_none t h1]
      split_ifs
      all_goals exact ⟨Or.inr (Or.inr rfl), by decide⟩
  exact ⟨hfast.1, hfast.2, hfp.1, hfp.2⟩

/-! ## C4: the greeting rule of the fallback classifiers -/

/-- Substring-containment greeting condition actually used by
`_fast_fallback`: `any(g in text for g in greetings)`. -/
def fastGreetContained (text : String) : Bool :=
  fastGreetings.any (fun g => strContains text g)

/-- Whether one of `_fast_fallback`'s two keyword rule blocks fired. -/
def fastDomainRuleFires (text : String) : Bool :=
  (fastEc2Block text).isSome || (fastS3Block text).isSome

/-- C4 counterexample: `_fast_fallback` classifies "this" as a greeting
because "this" contains the token "hi" as a substring, although "this"
neither equals nor starts with any token of the classifier's fixed greeting
list — refuting the claim that a text is classified as a greeting only when
it exactly equals or starts with a greeting token. -/
theorem c4_counterexample :
    fastFallback "this" = ⟨"unknown", "greeting", []⟩ ∧
    (fastGreetings.all (fun g =>
      !(strTrim (strLower "this") == g ||
        strStartsWith (strTrim (strLower "this")) (g ++ " ")))) = true := by
  decide

/-- C4 amended: the ordered-rule classifier `_fallback_parse` classifies a
text as a greeting exactly when the stripped lowered text equals or starts
with a token of its fixed list and contains none of the domain keywords
(ec2, s3, instance, bucket); the classifier the coordinator actually uses,
`_fast_fallback`, instead classifies as a greeting exactly when no domain
rule fired and the text merely contains a greeting token as a substring.
Domain-keyword rules outrank greeting rules in both: both classifiers map
"could you create an instance" to the compute create action. -/
theorem c4_amended (t : String) :
    ((fallbackParse t).action = "greeting" ↔
      (fpGreetPrefixOk (strLower t) = true ∧ fpHasDomainKw (strLower t) = false)) ∧
    ((fastFallback t).action = "greeting" ↔
      (fastDomainRuleFires (strLower t) = false ∧ fastGreetContained (strLower t) = true)) ∧
    fastFallback "could you create an instance" = ⟨"ec2", "create_instance", []⟩ ∧
    fallbackParse "could you create an instance" = ⟨"ec2", "create_instance", []⟩ := by
  refine ⟨?_, ?_, by decide, by decide⟩
  · cases h1 : fpDomainBlock (strLower t) with
    | some i =>
      rw [fallbackParse_of_domain t i h1]
      have s := fpDomainBlock_shape _ _ h1
      constructor
      · intro hgr; exact absurd hgr s.2.1
      · rintro ⟨-, hkw⟩
        rw [s.2.2.2] at hkw
        exact Bool.noConfusion hkw
    | none =>
      rw [fallbackParse_of_none t h1]
      cases hp : fpGreetPrefixOk (strLower t) <;>
        cases hk : fpHasDomainKw (strLower t) <;>
          simp [hp, hk]
  · cases h1 : fastEc2Block (strLower t) with
    | some i =>
      rw [fastFallback_of_ec2 t i h1]
      have s := fastEc2Block_shape _ _ h1
      constructor
      · intro hgr; exact absurd hgr s.2.1
      · rintro ⟨hfires, -⟩
        simp [fastDomainRuleFires, h1] at hfires
    | none =>
      cases h2 : fastS3Block (strLower t) with
      | some i =>
        rw [fastFallback_of_s3 t i h1 h2]
        have s := fastS3Block_shape _ _ h2
        constructor
        · intro hgr; exact absurd hgr s.2.1
        · rintro ⟨hfires, -⟩
          simp [fastDomainRuleFires, h2] at hfires
      | none =>
        have hfires : fastDomainRuleFires (strLower t) = false := by
          simp [fastDomainRuleFires, h1, h2]
        rw [fastFallback_of_none t h1 h2]
        cases hg : fastGreetings.any (fun g => strContains (strLower t) g) with
        | true => simp [hg, hfires, fastGreetContained]
        | false =>
          simp only [hg, Bool.false_eq_true, if_false]
          split_ifs <;> simp [fastGreetContained, hg, hfires]

/-! ## Python values and dict operations

Agent handlers and provider operations exchange Python dicts with
heterogeneous values; `PyVal` models the values that actually occur, with
`PyVal.none` for the Python `None` used as the routing-failure value. -/

/-- Python values exchanged by the agents. -/
inductive PyVal where
  | none
  | str (s : String)
  | nat (n : Nat)
  | bool (b : Bool)
  | list (xs : List PyVal)
  | dict (entries : List (String × PyVal))

/-- A Python dict with string keys. -/
abbrev PyDict := List (String × PyVal)

/-- First binding of a key in a dict (keys are unique in Python dicts). -/
def pyLookup (d : PyDict) (k : String) : Option PyVal :=
  (d.find? (fun p => p.1 == k)).map (fun p => p.2)

/-- Python `k in d`. -/
def pyHasKey (d : PyDict) (k : String) : Bool := (pyLookup d k).isSome

/-- Python `d[k] = v`: update in place if the key exists, else append,
preserving insertion order. -/
def pyDictSet (d : PyDict) (k : String) (v : PyVal) : PyDict :=
  if pyHasKey d k then d.map (fun p => if p.1 == k then (k, v) else p)
  else d ++ [(k, v)]

/-- Python dict.get with default on a dict value.  The agents only call
`.get` on dict values; on other values the default is returned. -/
def pyGetD (v : PyVal) (k : String) (dflt : PyVal) : PyVal :=
  match v with
  | .dict d => (pyLookup d k).getD dflt
  | _ => dflt

/-- dict.get with default, directly on a `PyDict`. -/
def dictGetD (d : PyDict) (k : String) (dflt : PyVal) : PyVal :=
  (pyLookup d k).getD dflt

/-- Python truthiness of the values the agents test. -/
def pyTruthy : PyVal → Bool
  | .none => false
  | .str s => !strIsEmpty s
  | .nat n => n != 0
  | .bool b => b
  | .list xs => !xs.isEmpty
  | .dict d => !d.isEmpty

/-- Numeric reading of a value; the agents' count fields are Python ints. -/
def pyValNat : PyVal → Nat
  | .nat n => n
  | _ => 0

/-- String reading of a value; the agents' query fields are strings. -/
def pyValStr : PyVal → String
  | .str s => s
  | _ => ""

/-- Python len of the values the agents measure. -/
def pyLen : PyVal → Nat
  | .list xs => xs.length
  | .dict d => d.length
  | .str s => s.length
  | _ => 0

/-- Python `v == s` against a string literal. -/
def pyIsStr (v : PyVal) (s : String) : Bool :=
  match v with
  | .str t => t == s
  | _ => false

/-- Key presence on a value (false on non-dicts). -/
def pyValHasKey (v : PyVal) (k : String) : Bool :=
  match v with
  | .dict d => pyHasKey d k
  | _ => false

/-- The coordinator's enrichment condition
`s3_info and s3_info.get('count', 0) > 0` on the A2A query response. -/
def pyCountPos (v : PyVal) : Bool :=
  pyTruthy v && decide (pyValNat (pyGetD v "count" (.nat 0)) > 0)

/-! ## Pattern extraction (coordinator regular expressions)

`_extract_instance_id` searches for `i-[a-f0-9]\x7b8,17\x7d` in the raw
text; `_extract_bucket_name` tries, in order, the patterns
`bucket\s+(...)`, `in\s+(...)`, `named?\s+(...)` on the lowered text, where
the group is `[a-z0-9][a-z0-9\-]\x7b1,61\x7d[a-z0-9]`.  The matchers below
implement Python re.search semantics for these patterns: leftmost match
position, greedy repetition with backtracking on the trailing
single-character class. -/

/-- Decimal digit class. -/
def isDigitCh (c : Char) : Bool := '0' ≤ c && c ≤ '9'

/-- The `[a-f0-9]` class of the instance-id pattern. -/
def isHexLowCh (c : Char) : Bool := ('a' ≤ c && c ≤ 'f') || isDigitCh c

/-- The `[a-z0-9]` class of the bucket-name pattern. -/
def isLowerAlnumCh (c : Char) : Bool := ('a' ≤ c && c ≤ 'z') || isDigitCh c

/-- The `[a-z0-9\-]` class of the bucket-name pattern. -/
def isBucketNameCh (c : Char) : Bool := isLowerAlnumCh c || c == '-'

/-- Length of the maximal prefix run of hex characters. -/
def hexRunLen : List Char → Nat
  | [] => 0
  | c :: rest => if isHexLowCh c then hexRunLen rest + 1 else 0

/-- Length of the maximal prefix run of whitespace. -/
def wsRunLen : List Char → Nat
  | [] => 0
  | c :: rest => if isPySpace c then wsRunLen rest + 1 else 0

/-- Match of `i-[a-f0-9]\x7b8,17\x7d` anchored at the head: greedy run of
at most 17 hex characters, at least 8 required. -/
def matchInstanceIdAt (cs : List Char) : Option (List Char) :=
  if ['i', '-'].isPrefixOf cs then
    let rest := cs.drop 2
    let k := min (hexRunLen rest) 17
    if 8 ≤ k then some (['i', '-'] ++ rest.take k) else none
  else none

/-- Leftmost match of the instance-id pattern. -/
def searchInstanceId : List Char → Option (List Char)
  | [] => Option.none
  | c :: rest =>
    match matchInstanceIdAt (c :: rest) with
    | some g => some g
    | Option.none => searchInstanceId rest

/-- `CoordinatorAgent._extract_instance_id` (regex on the raw text). -/
def extractInstanceId (text : String) : Option String :=
  (searchInstanceId text.data).map (fun cs => ⟨cs⟩)

/-- Greedy middle of the bucket-name group: the largest k ≤ 61 such that
the first k characters are in `[a-z0-9\-]` and the character after them is
in `[a-z0-9]`; returns middle ++ final character (regex backtracking on
the trailing class). -/
def bucketMid (rest : List Char) : Nat → Option (List Char)
  | 0 => Option.none
  | k + 1 =>
    if (rest.take (k + 1)).all isBucketNameCh then
      match rest.get? (k + 1) with
      | some c =>
        if isLowerAlnumCh c then some (rest.take (k + 1) ++ [c])
        else bucketMid rest k
      | Option.none => bucketMid rest k
    else bucketMid rest k

/-- Match of the capture group `[a-z0-9][a-z0-9\-]\x7b1,61\x7d[a-z0-9]`
anchored at the head. -/
def matchBucketGroup : List Char → Option (List Char)
  | [] => Option.none
  | c0 :: rest =>
    if isLowerAlnumCh c0 then (bucketMid rest 61).map (fun g => c0 :: g)
    else Option.none

/-- Match of `LIT\s+(GROUP)` anchored at the head, trying the alternative
literals in order (used for the optional d of `named?`). -/
def matchLitBucketAt (lits : List (List Char)) (cs : List Char) : Option (List Char) :=
  match lits with
  | [] => Option.none
  | lit :: more =>
    match (if lit.isPrefixOf cs then
             let rest := cs.drop lit.length
             if 1 ≤ wsRunLen rest then matchBucketGroup (rest.drop (wsRunLen rest))
             else Option.none
           else Option.none) with
    | some g => some g
    | Option.none => matchLitBucketAt more cs

/-- Leftmost match of a `LIT\s+(GROUP)` pattern. -/
def searchLitBucket (lits : List (List Char)) : List Char → Option (List Char)
  | [] => Option.none
  | c :: rest =>
    match matchLitBucketAt lits (c :: rest) with
    | some g => some g
    | Option.none => searchLitBucket lits rest

/-- `CoordinatorAgent._extract_bucket_name`: the three patterns are tried
in order on the lowered text; the first pattern with a match anywhere
wins. -/
def extractBucketName (text : String) : Option String :=
  match searchLitBucket ["bucket".data] (strLower text).data with
  | some g => some ⟨g⟩
  | Option.none =>
    match searchLitBucket ["in".data] (strLower text).data with
    | some g => some ⟨g⟩
    | Option.none =>
      match searchLitBucket ["named".data, "name".data] (strLower text).data with
      | some g => some ⟨g⟩
      | Option.none => Option.none

/-! ## Message envelope (base_agent.py, Message) -/

/-- The A2A message envelope.  `timestamp` and the clock value folded into
`id` are readings of the external wall clock (`datetime.now()`), threaded
in as parameters. -/
structure Message where
  sender : String
  receiver : String
  content : PyVal
  msgType : String
  timestamp : String
  id : String

/-- `Message.__init__`: the id is the f-string
`sender-receiver-timestampvalue` built from the sender, the receiver and
the clock reading `tsStamp` (`datetime.now().timestamp()` rendered to
text); `tsIso` is the separate `datetime.now().isoformat()` reading. -/
def mkMessage (sender receiver : String) (content : PyVal) (msgType : String)
    (tsIso tsStamp : String) : Message :=
  { sender := sender, receiver := receiver, content := content,
    msgType := msgType, timestamp := tsIso,
    id := sender ++ "-" ++ receiver ++ "-" ++ tsStamp }

/-- `Message.to_dict`. -/
def msgToDict (m : Message) : PyDict :=
  [("id", .str m.id), ("sender", .str m.sender), ("receiver", .str m.receiver),
   ("content", m.content), ("type", .str m.msgType), ("timestamp", .str m.timestamp)]

/-- `BaseAgent.handle_message` default acknowledgement. -/
def defaultHandleMessage : PyVal :=
  .dict [("status", .str "received"),
         ("message", .str "Message received but not processed")]

/-! ## Peer agent handlers (s3_agent.py / ec2_agent.py, handle_message)

The boto3-backed operations (`list_buckets`, `list_instances`,
`_bucket_exists`, `_get_instance_info`) are external collaborators and are
passed in as parameters. -/

/-- `S3Agent.handle_message`.  An inner chain that matches nothing falls
through to the default acknowledgement; the request branch is an elif of
the query branch. -/
def s3HandleMessage (listBucketsRes : PyDict) (bucketExists : String → PyDict)
    (m : Message) : PyVal :=
  let content := m.content
  if m.msgType == "query" then
    let q := strLower (pyValStr (pyGetD content "query" (.str "")))
    if strContains q "bucket" && strContains q "count" then
      .dict [("count", .nat (pyLen (dictGetD listBucketsRes "buckets" (.list [])))),
             ("buckets", .dict listBucketsRes)]
    else if strContains q "storage" || strContains q "size" then
      .dict [("message", .str "Storage size calculation requires CloudWatch metrics")]
    else defaultHandleMessage
  else if m.msgType == "request" then
    match pyGetD content "action" PyVal.none with
    | .str a =>
      if a == "list_buckets" then .dict listBucketsRes
      else if a == "bucket_exists" then
        .dict (bucketExists (pyValStr (pyGetD content "bucket_name" PyVal.none)))
      else defaultHandleMessage
    | _ => defaultHandleMessage
  else defaultHandleMessage

/-- `EC2Agent.handle_message`. -/
def ec2HandleMessage (listInstancesRes : PyDict) (getInstanceInfo : String → PyDict)
    (m : Message) : PyVal :=
  let content := m.content
  if m.msgType == "query" then
    let q := strLower (pyValStr (pyGetD content "query" (.str "")))
    if strContains q "instance" && strContains q "count" then
      .dict [("count", .nat (pyLen (dictGetD listInstancesRes "instances" (.list [])))),
             ("instances", .dict listInstancesRes)]
    else if strContains q "running" then
      match dictGetD listInstancesRes "instances" (.list []) with
      | .list xs =>
        .dict [("running_count",
                 .nat (xs.filter (fun i => pyIsStr (pyGetD i "state" PyVal.none) "running")).length),
               ("instances",
                 .list (xs.filter (fun i => pyIsStr (pyGetD i "state" PyVal.none) "running")))]
      | _ =>
        .dict [("running_count", .nat 0), ("instances", .list [])]
    else defaultHandleMessage
  else if m.msgType == "request" then
    match pyGetD content "action" PyVal.none with
    | .str a =>
      if a == "list_instances" then .dict listInstancesRes
      else if a == "get_instance_info" then
        .dict (getInstanceInfo (pyValStr (pyGetD content "instance_id" PyVal.none)))
      else defaultHandleMessage
    | _ => defaultHandleMessage
  else defaultHandleMessage

/-- The message constructed by `query_agent(peer, q)`: a send with kind
query whose content is a dict holding q under the key query. -/
def queryMessage (sender peer q tsIso tsStamp : String) : Message :=
  mkMessage sender peer (.dict [("query", .str q)]) "query" tsIso tsStamp

/-! ## Coordinator dispatch handlers (coordinator.py)

`_handle_ec2_action` and `_handle_s3_action` are embedded as functions of
the parsed intent, the raw input text, the resource agents' provider-facing
operations (external collaborators, passed as functions returning their
result dict) and the values returned by the two A2A calls the handlers
make.  Each handler also returns the trace of A2A calls and resource
operations it performed, in execution order. -/

/-- Observable actions of a coordinator handler, in execution order. -/
inductive CoordEv where
  | a2aQuery (peer : String) (queryText : String)
  | a2aSend (peer : String) (action : String) (msgType : String)
  | opCreateInstance (instanceType : String) (region : Option String)
  | opStopInstance (instanceId : String)
  | opTerminateInstance (instanceId : String)
  | opCreateBucket (bucketName : String) (region : Option String)
  | opListObjects (bucketName : String)
  | opDeleteBucket (bucketName : String)
deriving DecidableEq

/-- Python `a or b` on optional strings: the left value wins unless it is
falsy (absent or empty). -/
def pyOrStr (a b : Option String) : Option String :=
  match a with
  | some s => if strIsEmpty s then b else some s
  | Option.none => b

/-- `CoordinatorAgent._handle_ec2_action`.  `s3QueryResp` is the value the
A2A query to the S3 agent returned (Python None on routing failure);
`listResp` is the value `send_message` returned for the list branch. -/
def handleEc2Action (intent : IntentDict) (userInput : String)
    (createInstance : String → Option String → PyDict)
    (stopInstance : String → PyDict)
    (terminateInstance : String → PyDict)
    (s3QueryResp : PyVal) (listResp : PyVal) : PyVal × List CoordEv :=
  let action := intent.action
  let params := intent.parameters
  if action == "create_instance" then
    let instanceType := (alistGet params "instance_type").getD "t2.micro"
    let region := alistGet params "region"
    let result := createInstance instanceType region
    let result :=
      if pyCountPos s3QueryResp then
        pyDictSet result "tip"
          (.str ("💡 You have " ++
            toString (pyValNat (pyGetD s3QueryResp "count" (.nat 0))) ++
            " S3 bucket(s). You can use them with this instance!"))
      else result
    (.dict result,
     [.a2aQuery "S3Agent" "How many buckets does user have?",
      .opCreateInstance instanceType region])
  else if action == "list_instances" then
    (listResp, [.a2aSend "EC2Agent" "list_instances" "request"])
  else if action == "stop_instance" then
    match pyOrStr (alistGet params "instance_id") (extractInstanceId userInput) with
    | some iid =>
      if !strIsEmpty iid then (.dict (stopInstance iid), [.opStopInstance iid])
      else (.dict [("error", .str "Please provide instance ID")], [])
    | Option.none => (.dict [("error", .str "Please provide instance ID")], [])
  else if action == "terminate_instance" then
    match pyOrStr (alistGet params "instance_id") (extractInstanceId userInput) with
    | some iid =>
      if !strIsEmpty iid then (.dict (terminateInstance iid), [.opTerminateInstance iid])
      else (.dict [("error", .str "Please provide instance ID")], [])
    | Option.none => (.dict [("error", .str "Please provide instance ID")], [])
  else
    (.dict [("error", .str ("Unknown EC2 action: " ++ action))], [])

/-- `CoordinatorAgent._handle_s3_action`.  `ec2QueryResp` is the value the
A2A query to the EC2 agent returned. -/
def handleS3Action (intent : IntentDict) (userInput : String)
    (createBucket : String → Option String → PyDict)
    (listObjects : String → PyDict)
    (deleteBucket : String → PyDict)
    (ec2QueryResp : PyVal) (listResp : PyVal) : PyVal × List CoordEv :=
  let action := intent.action
  let params := intent.parameters
  if action == "create_bucket" then
    match (match alistGet params "bucket_name" with
           | some b => if strIsEmpty b then Option.none else some b
           | Option.none => Option.none) with
    | Option.none =>
      (.dict [("error", .str
        "Please provide a bucket name. Example: \x27create s3 bucket my-bucket-name\x27")], [])
    | some b =>
      let region := alistGet params "region"
      let result := createBucket b region
      let result :=
        if pyCountPos ec2QueryResp then
          pyDictSet result "tip"
            (.str ("💡 You have " ++
              toString (pyValNat (pyGetD ec2QueryResp "count" (.nat 0))) ++
              " EC2 instance(s). You can access this bucket from them!"))
        else result
      (.dict result,
       [.a2aQuery "EC2Agent" "How many instances does user have?",
        .opCreateBucket b region])
  else if action == "list_buckets" then
    (listResp, [.a2aSend "S3Agent" "list_buckets" "request"])
  else if action == "list_objects" then
    match pyOrStr (alistGet params "bucket_name") (extractBucketName userInput) with
    | some b =>
      if !strIsEmpty b then (.dict (listObjects b), [.opListObjects b])
      else (.dict [("error", .str "Please provide bucket name")], [])
    | Option.none => (.dict [("error", .str "Please provide bucket name")], [])
  else if action == "delete_bucket" then
    match pyOrStr (alistGet params "bucket_name") (extractBucketName userInput) with
    | some b =>
      if !strIsEmpty b then (.dict (deleteBucket b), [.opDeleteBucket b])
      else (.dict [("error", .str "Please provide bucket name")], [])
    | Option.none => (.dict [("error", .str "Please provide bucket name")], [])
  else
    (.dict [("error", .str ("Unknown S3 action: " ++ action))], [])

/-! ## Non-emptiness of extracted values -/

lemma matchInstanceIdAt_ne_nil (cs g : List Char)
    (h : matchInstanceIdAt cs = some g) : g ≠ [] := by
  simp only [matchInstanceIdAt] at h
  split_ifs at h
  all_goals first
    | exact Option.noConfusion h
    | (cases h; simp)

lemma searchInstanceId_ne_nil : ∀ (cs g : List Char),
    searchInstanceId cs = some g → g ≠ []
  | [], g, h => Option.noConfusion h
  | c :: rest, g, h => by
    simp only [searchInstanceId] at h
    cases hm : matchInstanceIdAt (c :: rest) with
    | some g2 => rw [hm] at h; cases h; exact matchInstanceIdAt_ne_nil _ _ hm
    | none => rw [hm] at h; exact searchInstanceId_ne_nil rest g h

lemma extractInstanceId_not_empty (t s : String)
    (h : extractInstanceId t = some s) : strIsEmpty s = false := by
  simp only [extractInstanceId] at h
  cases hs : searchInstanceId t.data with
  | some g =>
    rw [hs] at h
    simp only [Option.map_some'] at h
    cases h
    have hne := searchInstanceId_ne_nil _ _ hs
    cases g with
    | nil => exact absurd rfl hne
    | cons c cs => rfl
  | none => rw [hs] at h; exact Option.noConfusion h

lemma matchBucketGroup_ne_nil (cs g : List Char)
    (h : matchBucketGroup cs = some g) : g ≠ [] := by
  cases cs with
  | nil => exact Option.noConfusion h
  | cons c0 rest =>
    simp only [matchBucketGroup] at h
    split_ifs at h
    · cases hm : bucketMid rest 61 with
      | some m => rw [hm] at h; simp only [Option.map_some'] at h; cases h; simp
      | none => rw [hm] at h; exact Option.noConfusion h

lemma matchLitBucketAt_ne_nil : ∀ (lits : List (List Char)) (cs g : List Char),
    matchLitBucketAt lits cs = some g → g ≠ []
  | [], cs, g, h => Option.noConfusion h
  | lit :: more, cs, g, h => by
    simp only [matchLitBucketAt] at h
    split_ifs at h
    all_goals
      first
      | (cases hm : matchBucketGroup ((cs.drop lit.length).drop
            (wsRunLen (cs.drop lit.length))) with
         | some g2 =>
           rw [hm] at h; cases h; exact matchBucketGroup_ne_nil _ _ hm
         | none =>
           rw [hm] at h; exact matchLitBucketAt_ne_nil more cs g h)
      | exact matchLitBucketAt_ne_nil more cs g h

lemma searchLitBucket_ne_nil : ∀ (lits : List (List Char)) (cs g : List Char),
    searchLitBucket lits cs = some g → g ≠ []
  | _, [], g, h => Option.noConfusion h
  | lits, c :: rest, g, h => by
    simp only [searchLitBucket] at h
    cases hm : matchLitBucketAt lits (c :: rest) with
    | some g2 => rw [hm] at h; cases h; exact matchLitBucketAt_ne_nil _ _ _ hm
    | none => rw [hm] at h; exact searchLitBucket_ne_nil lits rest g h

lemma extractBucketName_not_empty (t s : String)
    (h : extractBucketName t = some s) : strIsEmpty s = false := by
  simp only [extractBucketName] at h
  cases h1 : searchLitBucket ["bucket".data] (strLower t).data with
  | some g =>
    rw [h1] at h; cases h
    have hne := searchLitBucket_ne_nil _ _ _ h1
    cases g with
    | nil => exact absurd rfl hne
    | cons c cs => rfl
  | none =>
    rw [h1] at h
    cases h2 : searchLitBucket ["in".data] (strLower t).data with
    | some g =>
      rw [h2] at h; cases h
      have hne := searchLitBucket_ne_nil _ _ _ h2
      cases g with
      | nil => exact absurd rfl hne
      | cons c cs => rfl
    | none =>
      rw [h2] at h
      cases h3 : searchLitBucket ["named".data, "name".data] (strLower t).data with
      | some g =>
        rw [h3] at h; cases h
        have hne := searchLitBucket_ne_nil _ _ _ h3
        cases g with
        | nil => exact absurd rfl hne
        | cons c cs => rfl
      | none => rw [h3] at h; exact Option.noConfusion h

lemma strIsEmpty_false_of_ne (s : String) (h : s ≠ "") : strIsEmpty s = false := by
  cases s with
  | mk data =>
    cases data with
    | nil => exact absurd rfl h
    | cons c cs => rfl

/-! ## C1: parameter resolution precedence in the coordinator handlers -/

/-- C1 counterexample: for the create-bucket handler with an empty intent
parameter mapping and the raw input "create s3 bucket my-bucket", the
handler returns the missing-parameter error and performs no A2A call and no
resource operation, even though pattern extraction over the raw text yields
the bucket name my-bucket — so the claimed precedence (pattern-extracted
value used when the intent parameter is absent; error only when absent from
both sources) does not hold for this handler. -/
theorem c1_counterexample :
    (handleS3Action ⟨"s3", "create_bucket", []⟩ "create s3 bucket my-bucket"
        (fun b _ => [("success", .bool true), ("bucket_name", .str b)])
        (fun b => [("bucket_name", .str b)])
        (fun b => [("bucket_name", .str b)])
        PyVal.none PyVal.none) =
      (.dict [("error", .str
        "Please provide a bucket name. Example: \x27create s3 bucket my-bucket-name\x27")], []) ∧
    alistGet ([] : List (String × String)) "bucket_name" = Option.none ∧
    extractBucketName "create s3 bucket my-bucket" = some "my-bucket" :=
  ⟨rfl, rfl, rfl⟩

/-- C1 amended: the claimed precedence (explicit intent parameter wins; a
pattern-extracted value from the raw text is used exactly when the intent
parameter is absent; with both absent the handler returns the
missing-parameter error without invoking any resource operation) holds for
the stop-instance, terminate-instance, list-objects and delete-bucket
handlers, and the optional create-instance parameters fall back to the
hard-coded default (instance type) or stay absent (region); but the
create-bucket handler consults only the intent parameter and fails
whenever it is absent, never attempting pattern extraction. -/
theorem c1_amended (srv : String) (params : List (String × String)) (ui : String)
    (createI : String → Option String → PyDict) (stopI termI : String → PyDict)
    (createB : String → Option String → PyDict) (listO delB : String → PyDict)
    (qS qE listR : PyVal) :
    (∀ iid, alistGet params "instance_id" = some iid → iid ≠ "" →
      handleEc2Action ⟨srv, "stop_instance", params⟩ ui createI stopI termI qS listR =
        (.dict (stopI iid), [.opStopInstance iid]) ∧
      handleEc2Action ⟨srv, "terminate_instance", params⟩ ui createI stopI termI qS listR =
        (.dict (termI iid), [.opTerminateInstance iid])) ∧
    (∀ iid, alistGet params "instance_id" = Option.none → extractInstanceId ui = some iid →
      handleEc2Action ⟨srv, "stop_instance", params⟩ ui createI stopI termI qS listR =
        (.dict (stopI iid), [.opStopInstance iid]) ∧
      handleEc2Action ⟨srv, "terminate_instance", params⟩ ui createI stopI termI qS listR =
        (.dict (termI iid), [.opTerminateInstance iid])) ∧
    (alistGet params "instance_id" = Option.none → extractInstanceId ui = Option.none →
      handleEc2Action ⟨srv, "stop_instance", params⟩ ui createI stopI termI qS listR =
        (.dict [("error", .str "Please provide instance ID")], []) ∧
      handleEc2Action ⟨srv, "terminate_instance", params⟩ ui createI stopI termI qS listR =
        (.dict [("error", .str "Please provide instance ID")], [])) ∧
    (∀ b, alistGet params "bucket_name" = some b → b ≠ "" →
      handleS3Action ⟨srv, "list_objects", params⟩ ui createB listO delB qE listR =
        (.dict (listO b), [.opListObjects b]) ∧
      handleS3Action ⟨srv, "delete_bucket", params⟩ ui createB listO delB qE listR =
        (.dict (delB b), [.opDeleteBucket b])) ∧
    (∀ b, alistGet params "bucket_name" = Option.none → extractBucketName ui = some b →
      handleS3Action ⟨srv, "list_objects", params⟩ ui createB listO delB qE listR =
        (.dict (listO b), [.opListObjects b]) ∧
      handleS3Action ⟨srv, "delete_bucket", params⟩ ui createB listO delB qE listR =
        (.dict (delB b), [.opDeleteBucket b])) ∧
    (alistGet params "bucket_name" = Option.none → extractBucketName ui = Option.none →
      handleS3Action ⟨srv, "list_objects", params⟩ ui createB listO delB qE listR =
        (.dict [("error", .str "Please provide bucket name")], []) ∧
      handleS3Action ⟨srv, "delete_bucket", params⟩ ui createB listO delB qE listR =
        (.dict [("error", .str "Please provide bucket name")], [])) ∧
    (alistGet params "bucket_name" = Option.none →
      handleS3Action ⟨srv, "create_bucket", params⟩ ui createB listO delB qE listR =
        (.dict [("error", .str
          "Please provide a bucket name. Example: \x27create s3 bucket my-bucket-name\x27")], [])) ∧
    ((handleEc2Action ⟨srv, "create_instance", params⟩ ui createI stopI termI qS listR).2 =
      [.a2aQuery "S3Agent" "How many buckets does user have?",
       .opCreateInstance ((alistGet params "instance_type").getD "t2.micro")
         (alistGet params "region")]) := by
  refine ⟨?_, ?_, ?_, ?_, ?_, ?_, ?_, ?_⟩
  · intro iid h hne
    have hnem := strIsEmpty_false_of_ne iid hne
    exact ⟨by simp [handleEc2Action, h, pyOrStr, hnem],
           by simp [handleEc2Action, h, pyOrStr, hnem]⟩
  · intro iid h hx
    have hnem := extractInstanceId_not_empty ui iid hx
    exact ⟨by simp [handleEc2Action, h, hx, pyOrStr, hnem],
           by simp [handleEc2Action, h, hx, pyOrStr, hnem]⟩
  · intro h hx
    exact ⟨by simp [handleEc2Action, h, hx, pyOrStr],
           by simp [handleEc2Action, h, hx, pyOrStr]⟩
  · intro b h hne
    have hnem := strIsEmpty_false_of_ne b hne
    exact ⟨by simp [handleS3Action, h, pyOrStr, hnem],
           by simp [handleS3Action, h, pyOrStr, hnem]⟩
  · intro b h hx
    have hnem := extractBucketName_not_empty ui b hx
    exact ⟨by simp [handleS3Action, h, hx, pyOrStr, hnem],
           by simp [handleS3Action, h, hx, pyOrStr, hnem]⟩
  · intro h hx
    exact ⟨by simp [handleS3Action, h, hx, pyOrStr],
           by simp [handleS3Action, h, hx, pyOrStr]⟩
  · intro h
    simp [handleS3Action, h]
  · simp [handleEc2Action]

/-- C1 amended, witnessed at concrete inputs: an explicit intent parameter
wins over a conflicting pattern-extractable instance id in the raw text,
and the create-bucket handler errors with an empty parameter mapping
although the text carries an extractable name. -/
theorem c1_amended_witness :
    handleEc2Action ⟨"ec2", "stop_instance", [("instance_id", "i-deadbeef99")]⟩
      "stop instance i-0123456789"
      (fun t _ => [("instance_type", .str t)])
      (fun i => [("stopped", .str i)])
      (fun i => [("terminated", .str i)])
      PyVal.none PyVal.none =
      (.dict [("stopped", .str "i-deadbeef99")], [.opStopInstance "i-deadbeef99"]) ∧
    handleS3Action ⟨"s3", "create_bucket", []⟩ "create s3 bucket my-bucket"
      (fun b _ => [("created", .str b)])
      (fun b => [("objects", .str b)])
      (fun b => [("deleted", .str b)])
      PyVal.none PyVal.none =
      (.dict [("error", .str
        "Please provide a bucket name. Example: \x27create s3 bucket my-bucket-name\x27")], []) := by
  constructor
  · exact ((c1_amended "ec2" [("instance_id", "i-deadbeef99")] "stop instance i-0123456789"
      (fun t _ => [("instance_type", .str t)]) (fun i => [("stopped", .str i)])
      (fun i => [("terminated", .str i)]) (fun b _ => [("created", .str b)])
      (fun b => [("objects", .str b)]) (fun b => [("deleted", .str b)])
      PyVal.none PyVal.none PyVal.none).1 "i-deadbeef99" rfl (by decide)).1
  · exact (c1_amended "s3" [] "create s3 bucket my-bucket"
      (fun t _ => [("instance_type", .str t)]) (fun i => [("stopped", .str i)])
      (fun i => [("terminated", .str i)]) (fun b _ => [("created", .str b)])
      (fun b => [("objects", .str b)]) (fun b => [("deleted", .str b)])
      PyVal.none PyVal.none PyVal.none).2.2.2.2.2.2.1 rfl

/-! ## Dict-update lemmas -/

lemma pyHasKey_append_self : ∀ (d : PyDict) (k : String) (v : PyVal),
    pyHasKey (d ++ [(k, v)]) k = true := by
  intro d k v
  induction d with
  | nil => simp [pyHasKey, pyLookup]
  | cons hd tl ih =>
    cases hbk : hd.1 == k with
    | true => simp [pyHasKey, pyLookup, List.find?_cons, hbk]
    | false => simp [pyHasKey, pyLookup, List.find?_cons, hbk]

lemma pyHasKey_map_update : ∀ (d : PyDict) (k : String) (v : PyVal),
    pyHasKey d k = true →
    pyHasKey (d.map (fun p => if p.1 == k then (k, v) else p)) k = true := by
  intro d k v h
  induction d with
  | nil => simp [pyHasKey, pyLookup] at h
  | cons hd tl ih =>
    cases hbk : hd.1 == k with
    | true =>
      simp only [List.map_cons]
      rw [show (if hd.1 == k then (k, v) else hd) = (k, v) by simp [hbk]]
      simp [pyHasKey, pyLookup, List.find?_cons]
    | false =>
      simp only [pyHasKey, pyLookup, List.find?_cons, hbk] at h
      simp only [List.map_cons]
      rw [show (if hd.1 == k then (k, v) else hd) = hd by simp [hbk]]
      simp only [pyHasKey, pyLookup, List.find?_cons, hbk] at ih ⊢
      exact ih h

lemma pyHasKey_pyDictSet_self (d : PyDict) (k : String) (v : PyVal) :
    pyHasKey (pyDictSet d k v) k = true := by
  simp only [pyDictSet]
  split_ifs with h
  · exact pyHasKey_map_update d k v h
  · exact pyHasKey_append_self d k v

/-! ## C6: enrichment queries never break the create operations -/

/-- C6: for both create-type handlers, the A2A query to the other resource
agent is issued first and the primary create operation is always invoked
exactly once afterwards, for every possible query response; a query failure
(the Python None returned on routing failure) leaves the create result
completely untouched; and a tip key is appended to the result exactly when
the query response is truthy with a positive count field (given that the
provider's create result itself carries no tip key). -/
theorem c6_enrichment_never_fails (srv : String) (params : List (String × String))
    (ui : String)
    (createI : String → Option String → PyDict) (stopI termI : String → PyDict)
    (createB : String → Option String → PyDict) (listO delB : String → PyDict)
    (qResp listR : PyVal) :
    ((handleEc2Action ⟨srv, "create_instance", params⟩ ui createI stopI termI qResp listR).2 =
       [.a2aQuery "S3Agent" "How many buckets does user have?",
        .opCreateInstance ((alistGet params "instance_type").getD "t2.micro")
          (alistGet params "region")]) ∧
    ((handleEc2Action ⟨srv, "create_instance", params⟩ ui createI stopI termI PyVal.none listR).1 =
       .dict (createI ((alistGet params "instance_type").getD "t2.micro")
         (alistGet params "region"))) ∧
    (pyLookup (createI ((alistGet params "instance_type").getD "t2.micro")
        (alistGet params "region")) "tip" = Option.none →
      pyValHasKey (handleEc2Action ⟨srv, "create_instance", params⟩ ui createI stopI termI
        qResp listR).1 "tip" = pyCountPos qResp) ∧
    (∀ b, alistGet params "bucket_name" = some b → b ≠ "" →
      ((handleS3Action ⟨srv, "create_bucket", params⟩ ui createB listO delB qResp listR).2 =
         [.a2aQuery "EC2Agent" "How many instances does user have?",
          .opCreateBucket b (alistGet params "region")]) ∧
      ((handleS3Action ⟨srv, "create_bucket", params⟩ ui createB listO delB PyVal.none listR).1 =
         .dict (createB b (alistGet params "region"))) ∧
      (pyLookup (createB b (alistGet params "region")) "tip" = Option.none →
        pyValHasKey (handleS3Action ⟨srv, "create_bucket", params⟩ ui createB listO delB
          qResp listR).1 "tip" = pyCountPos qResp)) := by
  refine ⟨by simp [handleEc2Action], by simp [handleEc2Action, pyCountPos, pyTruthy], ?_, ?_⟩
  · intro htip
    cases hc : pyCountPos qResp with
    | true =>
      simp only [handleEc2Action, hc]
      simp [pyValHasKey, pyHasKey_pyDictSet_self]
    | false =>
      simp only [handleEc2Action, hc]
      simp [pyValHasKey, pyHasKey, htip]
  · intro b hb hbne
    have hnem := strIsEmpty_false_of_ne b hbne
    refine ⟨by simp [handleS3Action, hb, hnem],
            by simp [handleS3Action, hb, hnem, pyCountPos, pyTruthy], ?_⟩
    intro htip
    cases hc : pyCountPos qResp with
    | true =>
      simp only [handleS3Action, hb, hnem, hc]
      simp [hnem, pyValHasKey, pyHasKey_pyDictSet_self]
    | false =>
      simp only [handleS3Action, hb, hnem, hc]
      simp [hnem, pyValHasKey, pyHasKey, htip]

/-- C6 witnessed at concrete inputs: with a query response reporting three
existing peers, the tip is appended; with a failed query (None) the create
result is returned untouched. -/
theorem c6_enrichment_witness :
    pyValHasKey (handleEc2Action ⟨"ec2", "create_instance", []⟩ "create an instance"
      (fun _ _ => [("success", .bool true)]) (fun i => [("s", .str i)])
      (fun i => [("t", .str i)])
      (.dict [("count", .nat 3)]) PyVal.none).1 "tip" =
      pyCountPos (.dict [("count", .nat 3)]) ∧
    (handleEc2Action ⟨"ec2", "create_instance", []⟩ "create an instance"
      (fun _ _ => [("success", .bool true)]) (fun i => [("s", .str i)])
      (fun i => [("t", .str i)])
      PyVal.none PyVal.none).1 = .dict [("success", .bool true)] := by
  constructor
  · exact (c6_enrichment_never_fails "ec2" [] "create an instance"
      (fun _ _ => [("success", .bool true)]) (fun i => [("s", .str i)])
      (fun i => [("t", .str i)]) (fun _ _ => [("created", .bool true)])
      (fun b => [("o", .str b)]) (fun b => [("d", .str b)])
      (.dict [("count", .nat 3)]) PyVal.none).2.2.1 rfl
  · exact (c6_enrichment_never_fails "ec2" [] "create an instance"
      (fun _ _ => [("success", .bool true)]) (fun i => [("s", .str i)])
      (fun i => [("t", .str i)]) (fun _ _ => [("created", .bool true)])
      (fun b => [("o", .str b)]) (fun b => [("d", .str b)])
      PyVal.none PyVal.none).2.1

/-! ## C7: the enrichment queries never produce a count, so no tip is ever added -/

/-- C7: for query messages, the peer handlers return a dict with a count
key exactly when the query text contains both the domain word and the word
count; the coordinator's actual enrichment query texts contain no "count",
so both handlers answer with the default acknowledgement, the positive-
count check is false, and the create handlers return the provider's create
result unchanged — no tip is ever appended. -/
theorem c7_no_tip_with_actual_queries (lb : PyDict) (bex : String → PyDict)
    (li : PyDict) (gii : String → PyDict) (tI tS : String) :
    (∀ q, pyValHasKey
        (s3HandleMessage lb bex (queryMessage "CoordinatorAgent" "S3Agent" q tI tS)) "count"
      = (strContains (strLower q) "bucket" && strContains (strLower q) "count")) ∧
    (∀ q, pyValHasKey
        (ec2HandleMessage li gii (queryMessage "CoordinatorAgent" "EC2Agent" q tI tS)) "count"
      = (strContains (strLower q) "instance" && strContains (strLower q) "count")) ∧
    s3HandleMessage lb bex
      (queryMessage "CoordinatorAgent" "S3Agent" "How many buckets does user have?" tI tS) =
      defaultHandleMessage ∧
    ec2HandleMessage li gii
      (queryMessage "CoordinatorAgent" "EC2Agent" "How many instances does user have?" tI tS) =
      defaultHandleMessage ∧
    pyCountPos defaultHandleMessage = false ∧
    (∀ (srv : String) (params : List (String × String)) (ui : String)
       (createI : String → Option String → PyDict) (stopI termI : String → PyDict)
       (listR : PyVal),
      (handleEc2Action ⟨srv, "create_instance", params⟩ ui createI stopI termI
        (s3HandleMessage lb bex
          (queryMessage "CoordinatorAgent" "S3Agent" "How many buckets does user have?" tI tS))
        listR).1 =
      .dict (createI ((alistGet params "instance_type").getD "t2.micro")
        (alistGet params "region"))) ∧
    (∀ (srv : String) (params : List (String × String)) (ui : String)
       (createB : String → Option String → PyDict) (listO delB : String → PyDict)
       (listR : PyVal) (b : String),
      alistGet params "bucket_name" = some b → b ≠ "" →
      (handleS3Action ⟨srv, "create_bucket", params⟩ ui createB listO delB
        (ec2HandleMessage li gii
          (queryMessage "CoordinatorAgent" "EC2Agent" "How many instances does user have?" tI tS))
        listR).1 =
      .dict (createB b (alistGet params "region"))) := by
  refine ⟨?_, ?_, rfl, rfl, rfl, ?_, ?_⟩
  · intro q
    cases hb : strContains (strLower q) "bucket" <;> cases hc : strContains (strLower q) "count" <;>
      simp [s3HandleMessage, queryMessage, mkMessage, pyGetD, pyLookup, pyValStr,
            List.find?_cons, hb, hc, pyValHasKey, pyHasKey, defaultHandleMessage] <;>
      split_ifs <;> simp [pyValHasKey, pyHasKey, pyLookup, List.find?_cons]
  · intro q
    cases hb : strContains (strLower q) "instance" <;> cases hc : strContains (strLower q) "count" <;>
      simp [ec2HandleMessage, queryMessage, mkMessage, pyGetD, pyLookup, pyValStr,
            List.find?_cons, hb, hc, pyValHasKey, pyHasKey, defaultHandleMessage] <;>
      split_ifs <;>
      first
        | rfl
        | (cases hdg : dictGetD li "instances" (PyVal.list []) <;>
            simp [hdg, pyValHasKey, pyHasKey, pyLookup, List.find?_cons])
  · intro srv params ui createI stopI termI listR
    rw [show s3HandleMessage lb bex
      (queryMessage "CoordinatorAgent" "S3Agent" "How many buckets does user have?" tI tS) =
      defaultHandleMessage from rfl]
    simp [handleEc2Action, show pyCountPos defaultHandleMessage = false from rfl]
  · intro srv params ui createB listO delB listR b hb hbne
    have hnem := strIsEmpty_false_of_ne b hbne
    rw [show ec2HandleMessage li gii
      (queryMessage "CoordinatorAgent" "EC2Agent" "How many instances does user have?" tI tS) =
      defaultHandleMessage from rfl]
    simp [handleS3Action, hb, hnem, show pyCountPos defaultHandleMessage = false from rfl]

/-- C7 witnessed at concrete inputs: the actual create-bucket dispatch with
the real peer response appends no tip. -/
theorem c7_no_tip_witness :
    (handleS3Action ⟨"s3", "create_bucket", [("bucket_name", "my-data")]⟩
      "create s3 bucket my-data"
      (fun b _ => [("success", .bool true), ("bucket_name", .str b)])
      (fun b => [("o", .str b)]) (fun b => [("d", .str b)])
      (ec2HandleMessage [("success", .bool true), ("instances", .list [])]
        (fun i => [("instance_id", .str i)])
        (queryMessage "CoordinatorAgent" "EC2Agent"
          "How many instances does user have?" "T" "100.0"))
      PyVal.none).1 =
    .dict [("success", .bool true), ("bucket_name", .str "my-data")] := by
  exact (c7_no_tip_with_actual_queries
    [("success", .bool true), ("buckets", .list [])]
    (fun b => [("exists", .bool false)])
    [("success", .bool true), ("instances", .list [])]
    (fun i => [("instance_id", .str i)]) "T" "100.0").2.2.2.2.2.2
    "s3" [("bucket_name", "my-data")] "create s3 bucket my-data"
    (fun b _ => [("success", .bool true), ("bucket_name", .str b)])
    (fun b => [("o", .str b)]) (fun b => [("d", .str b)])
    PyVal.none "my-data" rfl (by decide)

/-! ## Region mapping (ec2_agent.py, _map_region / _get_region_name) -/

/-- The static region table of `_map_region`, in source order. -/
def regionMap : List (String × String) :=
  [("virginia", "us-east-1"),
   ("n. virginia", "us-east-1"),
   ("north virginia", "us-east-1"),
   ("us-east-1", "us-east-1"),
   ("ohio", "us-east-2"),
   ("us-east-2", "us-east-2"),
   ("california", "us-west-1"),
   ("n. california", "us-west-1"),
   ("northern california", "us-west-1"),
   ("us-west-1", "us-west-1"),
   ("oregon", "us-west-2"),
   ("us-west-2", "us-west-2"),
   ("ireland", "eu-west-1"),
   ("eu-west-1", "eu-west-1"),
   ("london", "eu-west-2"),
   ("eu-west-2", "eu-west-2"),
   ("paris", "eu-west-3"),
   ("eu-west-3", "eu-west-3"),
   ("frankfurt", "eu-central-1"),
   ("eu-central-1", "eu-central-1"),
   ("stockholm", "eu-north-1"),
   ("eu-north-1", "eu-north-1"),
   ("tokyo", "ap-northeast-1"),
   ("ap-northeast-1", "ap-northeast-1"),
   ("seoul", "ap-northeast-2"),
   ("ap-northeast-2", "ap-northeast-2"),
   ("osaka", "ap-northeast-3"),
   ("ap-northeast-3", "ap-northeast-3"),
   ("singapore", "ap-southeast-1"),
   ("ap-southeast-1", "ap-southeast-1"),
   ("sydney", "ap-southeast-2"),
   ("ap-southeast-2", "ap-southeast-2"),
   ("mumbai", "ap-south-1"),
   ("ap-south-1", "ap-south-1"),
   ("canada", "ca-central-1"),
   ("central", "ca-central-1"),
   ("ca-central-1", "ca-central-1"),
   ("sao paulo", "sa-east-1"),
   ("brazil", "sa-east-1"),
   ("sa-east-1", "sa-east-1")]

/-- The reverse display table of `_get_region_name`, in source order. -/
def regionNames : List (String × String) :=
  [("us-east-1", "N. Virginia"),
   ("us-east-2", "Ohio"),
   ("us-west-1", "N. California"),
   ("us-west-2", "Oregon"),
   ("eu-west-1", "Ireland"),
   ("eu-west-2", "London"),
   ("eu-west-3", "Paris"),
   ("eu-central-1", "Frankfurt"),
   ("eu-north-1", "Stockholm"),
   ("ap-northeast-1", "Tokyo"),
   ("ap-northeast-2", "Seoul"),
   ("ap-northeast-3", "Osaka"),
   ("ap-southeast-1", "Singapore"),
   ("ap-southeast-2", "Sydney"),
   ("ap-south-1", "Mumbai"),
   ("ca-central-1", "Canada Central"),
   ("sa-east-1", "São Paulo")]

/-- `EC2Agent._map_region`: falsy input (absent or empty) yields the
default region us-east-2; otherwise the lowered, stripped input is looked
up in the static table, defaulting to us-east-2. -/
def mapRegion (regionInput : Option String) : String :=
  match regionInput with
  | Option.none => "us-east-2"
  | some s =>
    if strIsEmpty s then "us-east-2"
    else (alistGet regionMap (strTrim (strLower s))).getD "us-east-2"

/-- `EC2Agent._get_region_name`: display name for a region code, the code
itself when unknown. -/
def getRegionName (regionCode : String) : String :=
  (alistGet regionNames regionCode).getD regionCode

/-- C9 counterexample: the pair (Canada Central, ca-central-1) belongs to
the reverse half of the static bidirectional table, but mapping the
friendly name yields the default us-east-2 (the forward table has only
canada and central as keys, not canada central) while mapping the code
yields ca-central-1 — the two do not agree, refuting the claimed coherence
for every pair of the bidirectional table. -/
theorem c9_counterexample :
    ("ca-central-1", "Canada Central") ∈ regionNames ∧
    getRegionName "ca-central-1" = "Canada Central" ∧
    mapRegion (some "Canada Central") = "us-east-2" ∧
    mapRegion (some "ca-central-1") = "ca-central-1" ∧
    ("us-east-2" : String) ≠ "ca-central-1" := by
  refine ⟨by decide, rfl, rfl, rfl, by decide⟩

/-- C9 amended: the region mapping is deterministic and total — absent,
empty and unrecognized inputs map to the fixed default us-east-2, and for
every pair of the forward table, mapping the friendly key and mapping the
region code agree on the canonical code; the display lookup is likewise
total (identity on unknown codes).  The coherence fails only for the two
display names of the reverse table (Canada Central, São Paulo) that are
not keys of the forward table. -/
theorem c9_amended :
    mapRegion Option.none = "us-east-2" ∧
    mapRegion (some "") = "us-east-2" ∧
    (∀ s, alistGet regionMap (strTrim (strLower s)) = Option.none →
      mapRegion (some s) = "us-east-2") ∧
    (∀ p ∈ regionMap, mapRegion (some p.1) = p.2 ∧ mapRegion (some p.2) = p.2) ∧
    (∀ p ∈ regionNames, getRegionName p.1 = p.2) ∧
    (∀ s, alistGet regionNames s = Option.none → getRegionName s = s) := by
  refine ⟨rfl, rfl, ?_, by decide, by decide, ?_⟩
  · intro s h
    cases hs : strIsEmpty s with
    | true => simp [mapRegion, hs]
    | false => simp [mapRegion, hs, h]
  · intro s h
    simp [getRegionName, h]

/-- C9 amended, witnessed at a concrete unrecognized input. -/
theorem c9_amended_witness :
    mapRegion (some "atlantis") = "us-east-2" ∧ getRegionName "mars-north-1" = "mars-north-1" := by
  constructor
  · exact (c9_amended).2.2.1 "atlantis" (by decide)
  · exact (c9_amended).2.2.2.2.2 "mars-north-1" (by decide)

/-! ## Cross-region resource locator (ec2_agent.py, _find_instance_region /
terminate_instance)

The provider is external: `regions` is the list returned by the region
enumeration call, in provider order, and `describeReservations r iid` is
the region-scoped describe probe — `Option.none` models a raised provider
exception (caught and skipped by the loop), `some rs` a response whose
Reservations list is `rs`. -/

/-- The external provider interface used by the locator. -/
structure EC2Provider where
  regions : List String
  describeReservations : String → String → Option (List PyVal)

/-- A probe succeeds when the describe call returns without raising and
its Reservations list is non-empty. -/
def probeFound (p : EC2Provider) (iid : String) (r : String) : Bool :=
  match p.describeReservations r iid with
  | some rs => !rs.isEmpty
  | Option.none => false

/-- The search loop of `_find_instance_region`, instrumented with the list
of regions actually probed: it stops at the first successful probe. -/
def findInstanceRegionAux (p : EC2Provider) (iid : String) :
    List String → Option String × List String
  | [] => (Option.none, [])
  | r :: rest =>
    if probeFound p iid r then (some r, [r])
    else
      ((findInstanceRegionAux p iid rest).1,
       r :: (findInstanceRegionAux p iid rest).2)

/-- `EC2Agent._find_instance_region`: first region of the provider's
enumeration whose probe succeeds, None when none does. -/
def findInstanceRegion (p : EC2Provider) (iid : String) : Option String :=
  (findInstanceRegionAux p iid p.regions).1

/-- The regions probed by a `_find_instance_region` call, in order. -/
def probedRegions (p : EC2Provider) (iid : String) : List String :=
  (findInstanceRegionAux p iid p.regions).2

/-- `EC2Agent.terminate_instance`: locate the owning region, then issue the
regional terminate and wait (external `termWait`, whose `.error` outcome
models a raised provider exception caught by the surrounding handler). -/
def terminateInstance (p : EC2Provider)
    (termWait : String → String → Except String PyDict) (iid : String) : PyVal :=
  match findInstanceRegion p iid with
  | Option.none =>
    .dict [("error", .str ("Instance " ++ iid ++ " not found in any region"))]
  | some region =>
    match termWait region iid with
    | .error e => .dict [("error", .str e)]
    | .ok _ =>
      .dict [("success", .bool true),
             ("instance_id", .str iid),
             ("region", .str region),
             ("region_name", .str (getRegionName region)),
             ("message", .str ("Instance " ++ iid ++ " terminated successfully in " ++
               getRegionName region ++ " (" ++ region ++ ")"))]

lemma find?_eq_some_split {α : Type} (q : α → Bool) :
    ∀ (l : List α) (r : α),
    l.find? q = some r ↔
      ∃ pre post, l = pre ++ r :: post ∧ q r = true ∧ ∀ x ∈ pre, q x = false := by
  intro l r
  induction l with
  | nil => simp
  | cons a rest ih =>
    rw [List.find?_cons]
    cases hq : q a with
    | true =>
      simp only [hq]
      constructor
      · intro h
        injection h with h
        subst h
        exact ⟨[], rest, rfl, hq, by simp⟩
      · rintro ⟨pre, post, heq, hr, hpre⟩
        cases pre with
        | nil =>
          simp only [List.nil_append, List.cons.injEq] at heq
          rw [heq.1]
        | cons x pre2 =>
          simp only [List.cons_append, List.cons.injEq] at heq
          have hx := hpre x (by simp)
          rw [← heq.1, hq] at hx
          exact Bool.noConfusion hx
    | false =>
      simp only [hq]
      rw [ih]
      constructor
      · rintro ⟨pre, post, heq, hr, hpre⟩
        refine ⟨a :: pre, post, by rw [heq]; rfl, hr, ?_⟩
        intro x hx
        rcases List.mem_cons.mp hx with h | h
        · rw [h]; exact hq
        · exact hpre x h
      · rintro ⟨pre, post, heq, hr, hpre⟩
        cases pre with
        | nil =>
          simp only [List.nil_append, List.cons.injEq] at heq
          rw [← heq.1, hq] at hr
          exact Bool.noConfusion hr
        | cons x pre2 =>
          simp only [List.cons_append, List.cons.injEq] at heq
          exact ⟨pre2, post, heq.2, hr, fun y hy => hpre y (by simp [hy])⟩

lemma findAux_fst_eq_find? (p : EC2Provider) (iid : String) :
    ∀ rs, (findInstanceRegionAux p iid rs).1 = rs.find? (fun r => probeFound p iid r) := by
  intro rs
  induction rs with
  | nil => rfl
  | cons a rest ih =>
    rw [List.find?_cons]
    cases hp : probeFound p iid a <;> simp [findInstanceRegionAux, hp, ih]

lemma findAux_snd_takeWhile (p : EC2Provider) (iid : String) :
    ∀ rs, (findInstanceRegionAux p iid rs).2 =
      rs.takeWhile (fun r => !probeFound p iid r) ++
        (match (findInstanceRegionAux p iid rs).1 with
         | some r => [r]
         | Option.none => []) := by
  intro rs
  induction rs with
  | nil => rfl
  | cons a rest ih =>
    cases hp : probeFound p iid a <;>
      simp [findInstanceRegionAux, List.takeWhile_cons, hp, ih]

/-- C5: the region locator probes the provider's regions in enumeration
order and returns the first region whose probe succeeds — the probes
actually issued are exactly the failing prefix plus that first success
(short-circuit) — and reports not-found exactly when no region's probe
succeeds; consequently terminating an instance owned by no region returns
the not-found error value. -/
theorem c5_region_locator (p : EC2Provider) (iid : String) :
    (∀ r, findInstanceRegion p iid = some r ↔
      ∃ pre post, p.regions = pre ++ r :: post ∧ probeFound p iid r = true ∧
        ∀ x ∈ pre, probeFound p iid x = false) ∧
    (findInstanceRegion p iid = Option.none ↔
      ∀ r ∈ p.regions, probeFound p iid r = false) ∧
    (probedRegions p iid =
      p.regions.takeWhile (fun r => !probeFound p iid r) ++
        (match findInstanceRegion p iid with
         | some r => [r]
         | Option.none => [])) ∧
    (∀ termWait, (∀ r ∈ p.regions, probeFound p iid r = false) →
      terminateInstance p termWait iid =
        .dict [("error", .str ("Instance " ++ iid ++ " not found in any region"))]) := by
  have hfind : findInstanceRegion p iid = p.regions.find? (fun r => probeFound p iid r) :=
    findAux_fst_eq_find? p iid p.regions
  have hnone : findInstanceRegion p iid = Option.none ↔
      ∀ r ∈ p.regions, probeFound p iid r = false := by
    rw [hfind, List.find?_eq_none]
    constructor
    · intro h r hr
      have := h r hr
      simpa using this
    · intro h r hr
      simp [h r hr]
  refine ⟨?_, hnone, ?_, ?_⟩
  · intro r
    rw [hfind]
    exact find?_eq_some_split _ p.regions r
  · exact findAux_snd_takeWhile p iid p.regions
  · intro termWait h
    have h0 : findInstanceRegion p iid = Option.none := hnone.mpr h
    simp [terminateInstance, h0]

/-- C5 witnessed with the stub provider of the spec's end-to-end test: two
regions, every probe answering an empty reservation list, so no region
owns rsc-unknown and terminate reports the not-found error. -/
theorem c5_region_locator_witness :
    terminateInstance ⟨["us-east-1", "eu-west-1"], fun _ _ => some []⟩
      (fun _ _ => .ok []) "rsc-unknown" =
      .dict [("error", .str "Instance rsc-unknown not found in any region")] := by
  exact (c5_region_locator ⟨["us-east-1", "eu-west-1"], fun _ _ => some []⟩
    "rsc-unknown").2.2.2 (fun _ _ => .ok []) (by decide)

/-! ## Agent state, registry and synchronous delivery (base_agent.py)

An agent is identified by its unique name; the world is the collection of
agent states, and a registry stores the names of the registered peers (the
Python registry maps the name to the agent object itself, so a registered
name always denotes an existing agent).  Handlers are pure functions of
the received message: the peer handlers embedded above have this shape
once their external collaborators are fixed. -/

/-- State of one agent: `BaseAgent.__init__` plus its handler capability. -/
structure AgentState where
  name : String
  messageQueue : List Message
  agentsRegistry : List String
  conversationHistory : List PyDict
  handler : Message → PyVal

/-- The collection of live agents. -/
abbrev World := List AgentState

/-- The agent registered under a name (first match). -/
def lookupAgent (w : World) (n : String) : Option AgentState :=
  w.find? (fun a => a.name == n)

/-- Replace the state of the agent named n. -/
def updateAgent (w : World) (n : String) (f : AgentState → AgentState) : World :=
  w.map (fun a => if a.name == n then f a else a)

/-- `BaseAgent.send_message`: an unknown receiver yields the Python None
failure value with no state change; otherwise the Message is constructed,
appended to the sender's conversation history, and delivered synchronously
— the receiver appends it to its inbound queue and history and its handler
result is returned up the stack.  The third component is the list of
agents whose receive ran.  (The inner `Option.none` lookup case cannot
arise from Python, where the registry holds the receiver object itself.)
`appendHistFn` is the sender-side history append of `send_message`. -/
def appendHistFn (m : Message) : AgentState → AgentState :=
  fun a => { a with conversationHistory := a.conversationHistory ++ [msgToDict m] }

/-- `BaseAgent.receive_message` state change: append to the inbound queue
and the conversation history. -/
def receiveFn (m : Message) : AgentState → AgentState :=
  fun a => { a with messageQueue := a.messageQueue ++ [m],
                    conversationHistory := a.conversationHistory ++ [msgToDict m] }

def sendMessage (w : World) (sender receiver : String) (content : PyVal)
    (msgType : String) (tsIso tsStamp : String) : PyVal × World × List String :=
  match lookupAgent w sender with
  | Option.none => (PyVal.none, w, [])
  | some sen =>
    if receiver ∈ sen.agentsRegistry then
      match lookupAgent (updateAgent w sender
          (appendHistFn (mkMessage sender receiver content msgType tsIso tsStamp))) receiver with
      | Option.none =>
        (PyVal.none,
         updateAgent w sender
           (appendHistFn (mkMessage sender receiver content msgType tsIso tsStamp)),
         [])
      | some rcv =>
        (rcv.handler (mkMessage sender receiver content msgType tsIso tsStamp),
         updateAgent
           (updateAgent w sender
             (appendHistFn (mkMessage sender receiver content msgType tsIso tsStamp)))
           receiver
           (receiveFn (mkMessage sender receiver content msgType tsIso tsStamp)),
         [receiver])
    else (PyVal.none, w, [])

/-- `BaseAgent.broadcast` loop over a registry snapshot; `clock i` yields
the two wall-clock readings of the i-th Message construction. -/
def broadcastAux (sender : String) (content : PyVal) (msgType : String)
    (clock : Nat → String × String) :
    World → Nat → List String → List (String × PyVal) × World × List String
  | w, _, [] => ([], w, [])
  | w, i, n :: rest =>
    ((n, (sendMessage w sender n content msgType (clock i).1 (clock i).2).1) ::
       (broadcastAux sender content msgType clock
         (sendMessage w sender n content msgType (clock i).1 (clock i).2).2.1
         (i + 1) rest).1,
     (broadcastAux sender content msgType clock
       (sendMessage w sender n content msgType (clock i).1 (clock i).2).2.1
       (i + 1) rest).2.1,
     (sendMessage w sender n content msgType (clock i).1 (clock i).2).2.2 ++
       (broadcastAux sender content msgType clock
         (sendMessage w sender n content msgType (clock i).1 (clock i).2).2.1
         (i + 1) rest).2.2)

/-- `BaseAgent.broadcast`: one send per registered peer, in registry
iteration order, collecting each response keyed by peer name. -/
def broadcast (w : World) (sender : String) (content : PyVal) (msgType : String)
    (clock : Nat → String × String) : List (String × PyVal) × World × List String :=
  match lookupAgent w sender with
  | Option.none => ([], w, [])
  | some sen => broadcastAux sender content msgType clock w 0 sen.agentsRegistry

/-! ## Lookup/update lemmas -/

lemma lookupAgent_name (w : World) (m : String) (a : AgentState)
    (h : lookupAgent w m = some a) : a.name = m := by
  have := List.find?_some h
  exact eq_of_beq this

lemma lookupAgent_update (w : World) (n m : String) (f : AgentState → AgentState)
    (hf : ∀ a, (f a).name = a.name) :
    lookupAgent (updateAgent w n f) m =
      (lookupAgent w m).map (fun a => if a.name == n then f a else a) := by
  induction w with
  | nil => rfl
  | cons a tl ih =>
    simp only [updateAgent, List.map_cons, lookupAgent, List.find?_cons]
    have hname : (if a.name == n then f a else a).name = a.name := by
      split_ifs with h
      · exact hf a
      · rfl
    rw [hname]
    cases ham : a.name == m with
    | true => simp
    | false => simpa [updateAgent, lookupAgent] using ih

lemma lookupAgent_update_of_ne (w : World) (n m : String) (f : AgentState → AgentState)
    (hf : ∀ a, (f a).name = a.name) (hmn : m ≠ n) :
    lookupAgent (updateAgent w n f) m = lookupAgent w m := by
  rw [lookupAgent_update w n m f hf]
  cases hl : lookupAgent w m with
  | none => rfl
  | some a =>
    have ha := lookupAgent_name w m a hl
    have hbn : (a.name == n) = false := by
      rw [ha]
      exact beq_eq_false_iff_ne.mpr hmn
    simp [hbn]
    intro h
    rw [h] at hbn
    simp at hbn

lemma lookupAgent_update_self (w : World) (n : String) (f : AgentState → AgentState)
    (a : AgentState) (hf : ∀ b, (f b).name = b.name)
    (h : lookupAgent w n = some a) :
    lookupAgent (updateAgent w n f) n = some (f a) := by
  rw [lookupAgent_update w n n f hf, h]
  have ha := lookupAgent_name w n a h
  simp [ha]

lemma appendHistFn_name (m : Message) : ∀ a, (appendHistFn m a).name = a.name :=
  fun _ => rfl

lemma receiveFn_name (m : Message) : ∀ a, (receiveFn m a).name = a.name :=
  fun _ => rfl

/-! ## C2: routing failure versus synchronous delivery -/

/-- C2: a send to a receiver not registered with the sender returns the
Python None failure value (the RoutingError surface of the design — a
returned value, not an exception), with the world unchanged (neither
party's conversation history grows) and no receive invoked; a send to a
registered receiver returns the receiver's handler value computed by the
nested synchronous receive, with exactly one receive invocation, the
sender's conversation history extended by exactly the one new record, and
the receiver's inbound queue and conversation history likewise extended by
exactly that message. -/
theorem c2_send_routing (w : World) (s r : String) (content : PyVal)
    (msgType tI tS : String) (sen : AgentState) (hs : lookupAgent w s = some sen) :
    (r ∉ sen.agentsRegistry →
      sendMessage w s r content msgType tI tS = (PyVal.none, w, [])) ∧
    (∀ rcv, r ∈ sen.agentsRegistry → lookupAgent w r = some rcv → s ≠ r →
      (sendMessage w s r content msgType tI tS).1 =
        rcv.handler (mkMessage s r content msgType tI tS) ∧
      (sendMessage w s r content msgType tI tS).2.2 = [r] ∧
      lookupAgent (sendMessage w s r content msgType tI tS).2.1 s =
        some (appendHistFn (mkMessage s r content msgType tI tS) sen) ∧
      lookupAgent (sendMessage w s r content msgType tI tS).2.1 r =
        some (receiveFn (mkMessage s r content msgType tI tS) rcv)) := by
  constructor
  · intro hmem
    simp [sendMessage, hs, hmem]
  · intro rcv hmem hr hsr
    have hw1r : lookupAgent (updateAgent w s
        (appendHistFn (mkMessage s r content msgType tI tS))) r = some rcv := by
      rw [lookupAgent_update_of_ne w s r _ (appendHistFn_name _) (Ne.symm hsr)]
      exact hr
    refine ⟨?_, ?_, ?_, ?_⟩
    · simp [sendMessage, hs, hmem, hw1r]
    · simp [sendMessage, hs, hmem, hw1r]
    · simp only [sendMessage, hs, hmem, hw1r, if_true, if_pos]
      rw [lookupAgent_update_of_ne _ r s _ (receiveFn_name _) hsr]
      rw [lookupAgent_update_self w s _ sen (appendHistFn_name _) hs]
    · simp only [sendMessage, hs, hmem, hw1r, if_true, if_pos]
      rw [lookupAgent_update_self _ r _ rcv (receiveFn_name _) hw1r]

/-- C2 witnessed on a concrete two-agent world: a send to the unregistered
name C returns None with the world unchanged and no receive; a send to the
registered B returns B's handler value with exactly one receive. -/
theorem c2_send_witness :
    sendMessage [⟨"A", [], ["B"], [], fun _ => PyVal.none⟩,
                 ⟨"B", [], [], [], fun m => PyVal.dict [("echo", PyVal.str m.sender)]⟩]
      "A" "C" (PyVal.str "ping") "request" "T" "1.0" =
      (PyVal.none,
       [⟨"A", [], ["B"], [], fun _ => PyVal.none⟩,
        ⟨"B", [], [], [], fun m => PyVal.dict [("echo", PyVal.str m.sender)]⟩], []) ∧
    (sendMessage [⟨"A", [], ["B"], [], fun _ => PyVal.none⟩,
                  ⟨"B", [], [], [], fun m => PyVal.dict [("echo", PyVal.str m.sender)]⟩]
      "A" "B" (PyVal.str "ping") "request" "T" "1.0").1 =
      PyVal.dict [("echo", PyVal.str "A")] ∧
    (sendMessage [⟨"A", [], ["B"], [], fun _ => PyVal.none⟩,
                  ⟨"B", [], [], [], fun m => PyVal.dict [("echo", PyVal.str m.sender)]⟩]
      "A" "B" (PyVal.str "ping") "request" "T" "1.0").2.2 = ["B"] := by
  have h := (c2_send_routing
    [⟨"A", [], ["B"], [], fun _ => PyVal.none⟩,
     ⟨"B", [], [], [], fun m => PyVal.dict [("echo", PyVal.str m.sender)]⟩]
    "A" "B" (PyVal.str "ping") "request" "T" "1.0" _ rfl).2
    ⟨"B", [], [], [], fun m => PyVal.dict [("echo", PyVal.str m.sender)]⟩
    (by decide) rfl (by decide)
  exact ⟨(c2_send_routing
    [⟨"A", [], ["B"], [], fun _ => PyVal.none⟩,
     ⟨"B", [], [], [], fun m => PyVal.dict [("echo", PyVal.str m.sender)]⟩]
    "A" "C" (PyVal.str "ping") "request" "T" "1.0" _ rfl).1 (by decide),
    h.1, h.2.1⟩

/-! ## C8: Message id uniqueness -/

lemma strAppend_left_cancel (p a b : String) (h : p ++ a = p ++ b) : a = b := by
  cases p with
  | mk pd =>
    cases a with
    | mk ad =>
      cases b with
      | mk bd =>
        have hd : pd ++ ad = pd ++ bd := congrArg String.data h
        have := List.append_cancel_left hd
        rw [this]

/-- C8 counterexample: two distinct send operations between the same pair
of agents that observe the same clock reading (possible because
`datetime.now().timestamp()` has finite resolution and nothing in the code
enforces a change between consecutive reads) construct Messages with the
same id: after the two sends, the sender's conversation history holds two
records with identical id A-B-100.0 — refuting per-send uniqueness of the
id. -/
theorem c8_counterexample :
    ((lookupAgent
        (sendMessage
          (sendMessage
            [⟨"A", [], ["B"], [], fun _ => PyVal.none⟩,
             ⟨"B", [], [], [], fun _ => PyVal.none⟩]
            "A" "B" (PyVal.str "first send") "request" "T1" "100.0").2.1
          "A" "B" (PyVal.str "second send") "request" "T2" "100.0").2.1
        "A").map
      (fun a => a.conversationHistory.map (fun d => pyLookup d "id"))) =
    some [some (PyVal.str "A-B-100.0"), some (PyVal.str "A-B-100.0")] := rfl

/-- C8 amended: the Message id is unique across sends between a fixed
sender-receiver pair exactly as far as the clock readings are: two sends
whose rendered `datetime.now().timestamp()` readings differ get distinct
ids, but the code itself does not ensure distinct readings, so two sends
within the clock's resolution collide (see the counterexample). -/
theorem c8_amended (s r : String) (c1 c2 : PyVal) (mt1 mt2 tI1 tI2 tS1 tS2 : String)
    (h : tS1 ≠ tS2) :
    (mkMessage s r c1 mt1 tI1 tS1).id ≠ (mkMessage s r c2 mt2 tI2 tS2).id := by
  intro heq
  exact h (strAppend_left_cancel (s ++ "-" ++ r ++ "-") tS1 tS2 heq)

/-- C8 amended, witnessed at concrete clock readings. -/
theorem c8_amended_witness :
    (mkMessage "A" "B" (PyVal.str "x") "request" "T" "100.1").id ≠
      (mkMessage "A" "B" (PyVal.str "y") "request" "T" "100.2").id :=
  c8_amended "A" "B" (PyVal.str "x") (PyVal.str "y") "request" "request"
    "T" "T" "100.1" "100.2" (by decide)

/-! ## C3: broadcast invariants -/

/-- Sends change only queues and histories: names, registries and
existence of agents are untouched. -/
def coreUnchanged (w w' : World) : Prop :=
  ∀ n, ((lookupAgent w' n).map AgentState.name =
          (lookupAgent w n).map AgentState.name) ∧
       ((lookupAgent w' n).map AgentState.agentsRegistry =
          (lookupAgent w n).map AgentState.agentsRegistry) ∧
       ((lookupAgent w' n).isSome = (lookupAgent w n).isSome)

lemma coreUnchanged_refl (w : World) : coreUnchanged w w :=
  fun _ => ⟨rfl, rfl, rfl⟩

lemma coreUnchanged_trans {w1 w2 w3 : World}
    (h12 : coreUnchanged w1 w2) (h23 : coreUnchanged w2 w3) :
    coreUnchanged w1 w3 := fun n =>
  ⟨(h23 n).1.trans (h12 n).1, (h23 n).2.1.trans (h12 n).2.1,
   (h23 n).2.2.trans (h12 n).2.2⟩

lemma coreUnchanged_update (w : World) (n : String) (f : AgentState → AgentState)
    (hfn : ∀ a, (f a).name = a.name)
    (hfr : ∀ a, (f a).agentsRegistry = a.agentsRegistry) :
    coreUnchanged w (updateAgent w n f) := by
  intro m
  rw [lookupAgent_update w n m f hfn]
  cases lookupAgent w m with
  | none => exact ⟨rfl, rfl, rfl⟩
  | some a =>
    refine ⟨?_, ?_, rfl⟩
    · simp only [Option.map_some']
      split_ifs with h
      · rw [hfn a]
      · rfl
    · simp only [Option.map_some']
      split_ifs with h
      · rw [hfr a]
      · rfl

lemma appendHistFn_registry (m : Message) :
    ∀ a, (appendHistFn m a).agentsRegistry = a.agentsRegistry := fun _ => rfl

lemma receiveFn_registry (m : Message) :
    ∀ a, (receiveFn m a).agentsRegistry = a.agentsRegistry := fun _ => rfl

lemma sendMessage_core (w : World) (s r : String) (c : PyVal) (mt tI tS : String) :
    coreUnchanged w (sendMessage w s r c mt tI tS).2.1 := by
  cases hs : lookupAgent w s with
  | none =>
    rw [show (sendMessage w s r c mt tI tS).2.1 = w from by simp [sendMessage, hs]]
    exact coreUnchanged_refl w
  | some sen =>
    by_cases hmem : r ∈ sen.agentsRegistry
    · cases hr : lookupAgent (updateAgent w s (appendHistFn (mkMessage s r c mt tI tS))) r with
      | none =>
        rw [show (sendMessage w s r c mt tI tS).2.1 =
            updateAgent w s (appendHistFn (mkMessage s r c mt tI tS)) from by
          simp [sendMessage, hs, hmem, hr]]
        exact coreUnchanged_update w s _ (appendHistFn_name _) (appendHistFn_registry _)
      | some rcv =>
        rw [show (sendMessage w s r c mt tI tS).2.1 =
            updateAgent (updateAgent w s (appendHistFn (mkMessage s r c mt tI tS))) r
              (receiveFn (mkMessage s r c mt tI tS)) from by
          simp [sendMessage, hs, hmem, hr]]
        exact coreUnchanged_trans
          (coreUnchanged_update w s _ (appendHistFn_name _) (appendHistFn_registry _))
          (coreUnchanged_update _ r _ (receiveFn_name _) (receiveFn_registry _))
    · rw [show (sendMessage w s r c mt tI tS).2.1 = w from by simp [sendMessage, hs, hmem]]
      exact coreUnchanged_refl w

lemma sendMessage_fires (w : World) (s r : String) (c : PyVal) (mt tI tS : String)
    (sen : AgentState) (hs : lookupAgent w s = some sen)
    (hmem : r ∈ sen.agentsRegistry) (hr : (lookupAgent w r).isSome = true) :
    (sendMessage w s r c mt tI tS).2.2 = [r] := by
  have h1 : (lookupAgent (updateAgent w s (appendHistFn (mkMessage s r c mt tI tS)))
      r).isSome = true := by
    rw [lookupAgent_update w s r _ (appendHistFn_name _)]
    cases hl : lookupAgent w r with
    | none => rw [hl] at hr; exact absurd hr (by simp)
    | some a => simp
  obtain ⟨rcv, hrcv⟩ := Option.isSome_iff_exists.mp h1
  simp [sendMessage, hs, hmem, hrcv]

lemma broadcastAux_spec (sender : String) (content : PyVal) (msgType : String)
    (clock : Nat → String × String) :
    ∀ (names : List String) (w : World) (i : Nat) (sen : AgentState),
      lookupAgent w sender = some sen →
      (∀ n ∈ names, n ∈ sen.agentsRegistry) →
      (∀ n ∈ names, (lookupAgent w n).isSome = true) →
      (broadcastAux sender content msgType clock w i names).1.map Prod.fst = names ∧
      (broadcastAux sender content msgType clock w i names).2.2 = names := by
  intro names
  induction names with
  | nil => intro w i sen _ _ _; exact ⟨rfl, rfl⟩
  | cons n rest ih =>
    intro w i sen hs hreg hsome
    have hmem : n ∈ sen.agentsRegistry := hreg n (List.mem_cons_self n rest)
    have hn : (lookupAgent w n).isSome = true := hsome n (List.mem_cons_self n rest)
    have htr := sendMessage_fires w sender n content msgType (clock i).1 (clock i).2 sen hs hmem hn
    have hcore := sendMessage_core w sender n content msgType (clock i).1 (clock i).2
    have hsname := (hcore sender).1
    have hsreg := (hcore sender).2.1
    rw [hs] at hsname hsreg
    cases hs' : lookupAgent (sendMessage w sender n content msgType
        (clock i).1 (clock i).2).2.1 sender with
    | none => rw [hs'] at hsname; simp at hsname
    | some sen' =>
      have hreg' : sen'.agentsRegistry = sen.agentsRegistry := by
        rw [hs'] at hsreg; simpa using hsreg
      have ihh := ih (sendMessage w sender n content msgType (clock i).1 (clock i).2).2.1
        (i + 1) sen' hs'
        (fun m hm => by rw [hreg']; exact hreg m (List.mem_cons_of_mem _ hm))
        (fun m hm => by
          rw [(hcore m).2.2]
          exact hsome m (List.mem_cons_of_mem _ hm))
      constructor
      · simp only [broadcastAux, List.map_cons]
        rw [ihh.1]
      · simp only [broadcastAux]
        rw [htr, ihh.2]
        rfl

/-- C3: for a sender with N registered peers, broadcast invokes each
peer's receive exactly once, in registry iteration order (the receive
trace equals the registry), and returns a result mapping with exactly one
key per peer name, in the same order and of length N.  The statement
quantifies over all handlers, including ones returning the Python None
failure value, so a failing delivery does not abort the remaining
deliveries and is recorded as None under that peer's key. -/
theorem c3_broadcast (w : World) (sender : String) (content : PyVal) (msgType : String)
    (clock : Nat → String × String) (sen : AgentState)
    (hs : lookupAgent w sender = some sen)
    (hall : ∀ n ∈ sen.agentsRegistry, (lookupAgent w n).isSome = true) :
    (broadcast w sender content msgType clock).1.map Prod.fst = sen.agentsRegistry ∧
    (broadcast w sender content msgType clock).1.length = sen.agentsRegistry.length ∧
    (broadcast w sender content msgType clock).2.2 = sen.agentsRegistry := by
  have h := broadcastAux_spec sender content msgType clock sen.agentsRegistry w 0 sen hs
    (fun n hn => hn) hall
  have hb : broadcast w sender content msgType clock =
      broadcastAux sender content msgType clock w 0 sen.agentsRegistry := by
    simp [broadcast, hs]
  rw [hb]
  refine ⟨h.1, ?_, h.2⟩
  conv_rhs => rw [← h.1]
  exact (List.length_map _ _).symm

/-- C3 witnessed on a three-agent world whose second peer's handler yields
the None failure value: both peers are still delivered to, in registry
order, and the failing peer is recorded as None in the result mapping. -/
theorem c3_broadcast_witness :
    (broadcast [⟨"C", [], ["A", "B"], [], fun _ => PyVal.none⟩,
                ⟨"A", [], [], [], fun _ => PyVal.dict [("ok", PyVal.bool true)]⟩,
                ⟨"B", [], [], [], fun _ => PyVal.none⟩]
      "C" (PyVal.str "note") "notification" (fun _ => ("T", "1.0"))).1.map Prod.fst =
      ["A", "B"] ∧
    (broadcast [⟨"C", [], ["A", "B"], [], fun _ => PyVal.none⟩,
                ⟨"A", [], [], [], fun _ => PyVal.dict [("ok", PyVal.bool true)]⟩,
                ⟨"B", [], [], [], fun _ => PyVal.none⟩]
      "C" (PyVal.str "note") "notification" (fun _ => ("T", "1.0"))).1.length = 2 ∧
    (broadcast [⟨"C", [], ["A", "B"], [], fun _ => PyVal.none⟩,
                ⟨"A", [], [], [], fun _ => PyVal.dict [("ok", PyVal.bool true)]⟩,
                ⟨"B", [], [], [], fun _ => PyVal.none⟩]
      "C" (PyVal.str "note") "notification" (fun _ => ("T", "1.0"))).2.2 = ["A", "B"] ∧
    (broadcast [⟨"C", [], ["A", "B"], [], fun _ => PyVal.none⟩,
                ⟨"A", [], [], [], fun _ => PyVal.dict [("ok", PyVal.bool true)]⟩,
                ⟨"B", [], [], [], fun _ => PyVal.none⟩]
      "C" (PyVal.str "note") "notification" (fun _ => ("T", "1.0"))).1 =
      [("A", PyVal.dict [("ok", PyVal.bool true)]), ("B", PyVal.none)] := by
  have h := c3_broadcast [⟨"C", [], ["A", "B"], [], fun _ => PyVal.none⟩,
                ⟨"A", [], [], [], fun _ => PyVal.dict [("ok", PyVal.bool true)]⟩,
                ⟨"B", [], [], [], fun _ => PyVal.none⟩]
    "C" (PyVal.str "note") "notification" (fun _ => ("T", "1.0")) _ rfl (by decide)
  exact ⟨h.1, h.2.1, h.2.2, rfl⟩
